import Mathlib

/-!
# Verification of the btcpayserver-scripts batch drivers

Shallow embedding of the batch-execution, funding, config-merge and
exit-code logic of the repository's Python scripts
(`generate_invoices.py`, `generate_addresses.py`, `populate_tables.py`,
`test_btcpay_health.py`), together with proofs and refutations of the
specification's claims about them.

Conventions:
* Python `range(start, stop, step)` is `pyRangeStep`.
* Python dict lookups that can raise `KeyError` are modelled with an
  explicit association-list dictionary (`PyVal`) and `Except`.
* Machine integers are `Nat`; the scripts only ever use small
  non-negative counters, so no overflow modelling is needed.
* Amounts that are Python floats compared against literal defaults
  (`0.001`, `0.0001`) are modelled as `ℚ`; only equality tests with the
  literal default are performed on them in the merged code, which the
  rational model reproduces exactly.
-/

namespace BTCPayScripts

/-- Python `range(start, stop, step)` for a positive step, as the list of
start values visited by `for start in range(start, stop, step)`. -/
def pyRangeStep (start stop step : Nat) : List Nat :=
  if _h : 0 < step ∧ start < stop then
    start :: pyRangeStep (start + step) stop step
  else
    []
termination_by stop - start
decreasing_by omega

/-- The batch boundaries computed by every script's batch loop:
`for batch_start in range(0, count, batch_size): batch_end =
min(batch_start + batch_size, count)` (e.g. `generate_invoices.py`
lines 249-250, `populate_tables.py` lines 333-334). -/
def batchBounds (total batch_size : Nat) : List (Nat × Nat) :=
  (pyRangeStep 0 total batch_size).map (fun s => (s, min (s + batch_size) total))

/-- The 0-based unit indices of one batch: `range(batch_start, batch_end)`. -/
def batchUnits (b : Nat × Nat) : List Nat :=
  List.range' b.1 (b.2 - b.1)

/-- All unit indices of a run, in batch order. -/
def allUnits (total batch_size : Nat) : List Nat :=
  ((batchBounds total batch_size).map batchUnits).flatten

/-- The start of the last batch, in closed form. -/
def lastBatchStart (total batch_size : Nat) : Nat :=
  batch_size * ((total - 1) / batch_size)

theorem pyRangeStep_eq (start stop step : Nat) :
    pyRangeStep start stop step =
      if 0 < step ∧ start < stop then
        start :: pyRangeStep (start + step) stop step
      else [] := by
  rw [pyRangeStep]
  by_cases h : 0 < step ∧ start < stop
  · rw [dif_pos h, if_pos h]
  · rw [dif_neg h, if_neg h]

theorem pyRangeStep_stopped (start stop step : Nat) (h : ¬ (0 < step ∧ start < stop)) :
    pyRangeStep start stop step = [] := by
  rw [pyRangeStep_eq, if_neg h]

theorem pyRangeStep_advance (start stop step : Nat) (h : 0 < step ∧ start < stop) :
    pyRangeStep start stop step = start :: pyRangeStep (start + step) stop step := by
  rw [pyRangeStep_eq, if_pos h]

/-- Generalised flattening lemma: from any aligned start, the concatenated
unit indices of the remaining batches are exactly `range' start (total - start)`. -/
theorem units_join_from (total bs : Nat) (hbs : 0 < bs) :
    ∀ n start, total - start ≤ n →
      ((pyRangeStep start total bs).map
        (fun s => List.range' s (min (s + bs) total - s))).flatten
        = List.range' start (total - start) := by
  intro n
  induction n with
  | zero =>
    intro start hle
    have hstop : ¬ (0 < bs ∧ start < total) := by omega
    rw [pyRangeStep_stopped _ _ _ hstop]
    have : total - start = 0 := by omega
    simp [this]
  | succ n ih =>
    intro start hle
    by_cases hlt : start < total
    · rw [pyRangeStep_advance _ _ _ ⟨hbs, hlt⟩]
      simp only [List.map_cons, List.flatten_cons]
      rw [ih (start + bs) (by omega)]
      by_cases hfull : start + bs ≤ total
      · have hmin : min (start + bs) total = start + bs := by omega
        rw [hmin]
        have h1 : start + bs - start = bs := by omega
        rw [h1]
        have := List.range'_append start bs (total - (start + bs)) 1
        simp only [Nat.mul_one, Nat.one_mul] at this
        have h4 : total - (start + bs) + bs = total - start := by omega
        rw [this, h4]
      · have hmin : min (start + bs) total = total := by omega
        rw [hmin]
        have h1 : total - (start + bs) = 0 := by omega
        rw [h1]
        simp
    · rw [pyRangeStep_stopped _ _ _ (by omega)]
      have : total - start = 0 := by omega
      simp [this]

/-- The batch partition covers exactly the unit indices `[0, total)`, in order:
concatenating the batches yields `range total`. -/
theorem allUnits_eq_range (total bs : Nat) (hbs : 0 < bs) :
    allUnits total bs = List.range total := by
  unfold allUnits batchBounds batchUnits
  rw [List.map_map]
  have := units_join_from total bs hbs (total - 0) 0 (le_refl _)
  simpa [List.range_eq_range', Function.comp] using this

/-- Every batch except the last has exactly `batch_size` units. -/
theorem dropLast_batch_sizes (total bs : Nat) (hbs : 0 < bs) :
    ∀ n start, total - start ≤ n →
      ∀ b ∈ (((pyRangeStep start total bs).map
        (fun s => (s, min (s + bs) total))).dropLast), b.2 - b.1 = bs := by
  intro n
  induction n with
  | zero =>
    intro start hle b hb
    have hstop : ¬ (0 < bs ∧ start < total) := by omega
    rw [pyRangeStep_stopped _ _ _ hstop] at hb
    simp at hb
  | succ n ih =>
    intro start hle b hb
    by_cases hlt : start < total
    · rw [pyRangeStep_advance _ _ _ ⟨hbs, hlt⟩] at hb
      by_cases hnext : start + bs < total
      · rw [pyRangeStep_advance (start + bs) total bs ⟨hbs, hnext⟩] at hb
        rw [List.map_cons, List.map_cons, List.dropLast_cons₂] at hb
        simp only [List.mem_cons] at hb
        rcases hb with rfl | hb
        · show min (start + bs) total - start = bs
          omega
        · refine ih (start + bs) (by omega) b ?_
          rw [pyRangeStep_advance (start + bs) total bs ⟨hbs, hnext⟩, List.map_cons]
          exact hb
      · rw [List.map_cons, pyRangeStep_stopped (start + bs) total bs (by omega)] at hb
        simp at hb
    · rw [pyRangeStep_stopped _ _ _ (by omega)] at hb
      simp at hb

/-- The last start visited by `range(start, total, bs)`, in closed form. -/
theorem pyRangeStep_getLast (total bs : Nat) (hbs : 0 < bs) :
    ∀ n start, total - start ≤ n → start < total →
      (pyRangeStep start total bs).getLast? =
        some (start + bs * ((total - 1 - start) / bs)) := by
  intro n
  induction n with
  | zero => intro start hle hlt; omega
  | succ n ih =>
    intro start hle hlt
    rw [pyRangeStep_advance _ _ _ ⟨hbs, hlt⟩]
    by_cases hnext : start + bs < total
    · have hrec := ih (start + bs) (by omega) hnext
      rw [pyRangeStep_advance (start + bs) total bs ⟨hbs, hnext⟩] at hrec ⊢
      rw [List.getLast?_cons_cons, hrec]
      have hdiv : (total - 1 - start) / bs = (total - 1 - (start + bs)) / bs + 1 := by
        have h1 : bs ≤ total - 1 - start := by omega
        have h2 : total - 1 - (start + bs) = (total - 1 - start) - bs := by omega
        rw [h2, Nat.div_eq_sub_div hbs h1]
      rw [hdiv, Nat.mul_add, Nat.mul_one]
      congr 1
      omega
    · rw [pyRangeStep_stopped (start + bs) total bs (by omega)]
      have hdiv : (total - 1 - start) / bs = 0 := Nat.div_eq_of_lt (by omega)
      rw [hdiv]
      simp

/-- The last batch start of the whole run is `lastBatchStart`. -/
theorem pyRangeStep_zero_getLast (total bs : Nat) (h1 : 0 < total) (hbs : 0 < bs) :
    (pyRangeStep 0 total bs).getLast? = some (lastBatchStart total bs) := by
  have := pyRangeStep_getLast total bs hbs total 0 (by omega) h1
  simpa [lastBatchStart] using this

/-- The last batch reaches exactly `total`. -/
theorem lastBatchStart_add_ge (total bs : Nat) (h1 : 0 < total) (hbs : 0 < bs) :
    total ≤ lastBatchStart total bs + bs := by
  unfold lastBatchStart
  have h := Nat.div_add_mod (total - 1) bs
  have h2 : (total - 1) % bs < bs := Nat.mod_lt _ hbs
  omega

/-- The size of the last batch is `total % bs`, or `bs` when that is zero. -/
theorem lastBatch_size (total bs : Nat) (h1 : 0 < total) (hbs : 0 < bs) :
    total - lastBatchStart total bs = (if total % bs = 0 then bs else total % bs) := by
  unfold lastBatchStart
  have hsucc : total / bs = (total - 1) / bs + (if bs ∣ total then 1 else 0) := by
    have := Nat.succ_div (total - 1) bs
    have hts : total - 1 + 1 = total := by omega
    rw [hts] at this
    exact this
  have hmod := Nat.div_add_mod total bs
  have hmodlt : total % bs < bs := Nat.mod_lt _ hbs
  have hdvd : bs ∣ total ↔ total % bs = 0 := Nat.dvd_iff_mod_eq_zero
  by_cases hd : bs ∣ total
  · rw [if_pos (hdvd.mp hd)]
    rw [hsucc, if_pos hd] at hmod
    rw [Nat.mul_add, Nat.mul_one] at hmod
    have hr : total % bs = 0 := hdvd.mp hd
    generalize bs * ((total - 1) / bs) = t at *
    omega
  · rw [if_neg (fun hc => hd (hdvd.mpr hc))]
    rw [hsucc, if_neg hd] at hmod
    simp only [Nat.add_zero] at hmod
    generalize bs * ((total - 1) / bs) = t at *
    omega

/-- C6. The batch partition computed by the executors
(`generate_invoices.py` lines 249-250, `populate_tables.py` lines
333-334) assigns every unit index in `[0, total)` to exactly one batch,
contiguously and without overlap (the concatenation of the batches is
exactly `range total`), every batch except the last has size
`batch_size`, and the last batch ends at `total` with size
`total % batch_size` (or `batch_size` when that remainder is zero). -/
theorem batch_partition_correct (total bs : Nat) (h1 : 0 < total) (h2 : 0 < bs) :
    allUnits total bs = List.range total ∧
    (∀ b ∈ (batchBounds total bs).dropLast, b.2 - b.1 = bs) ∧
    (batchBounds total bs).getLast? = some (lastBatchStart total bs, total) ∧
    total - lastBatchStart total bs = (if total % bs = 0 then bs else total % bs) := by
  refine ⟨allUnits_eq_range total bs h2, ?_, ?_, lastBatch_size total bs h1 h2⟩
  · exact dropLast_batch_sizes total bs h2 total 0 (by omega)
  · unfold batchBounds
    rw [List.getLast?_map, pyRangeStep_zero_getLast total bs h1 h2]
    have := lastBatchStart_add_ge total bs h1 h2
    have hmin : min (lastBatchStart total bs + bs) total = total := by omega
    simp [hmin]

/-- Witness for C6 at `total = 7`, `batch_size = 3`: batches
`(0,3) (3,6) (6,7)`. -/
theorem batch_partition_correct_witness :
    (0 < 7 ∧ 0 < 3) ∧
    (allUnits 7 3 = List.range 7 ∧
     (∀ b ∈ (batchBounds 7 3).dropLast, b.2 - b.1 = 3) ∧
     (batchBounds 7 3).getLast? = some (lastBatchStart 7 3, 7) ∧
     7 - lastBatchStart 7 3 = (if 7 % 3 = 0 then 3 else 7 % 3)) :=
  ⟨⟨by decide, by decide⟩, batch_partition_correct 7 3 (by decide) (by decide)⟩

/-! ## generate_invoices.py — invoice generator -/

/-- A Python value as far as the scripts inspect it: strings, ints,
booleans and dicts. -/
inductive PyVal where
  | str (s : String)
  | int (n : Nat)
  | bool (b : Bool)
  | dict (entries : List (String × PyVal))

/-- Python `d[key]` on a dict: the value, or a `KeyError`. -/
def pyDictGet (v : PyVal) (key : String) : Except String PyVal :=
  match v with
  | .dict entries =>
      match entries.lookup key with
      | some x => Except.ok x
      | none => Except.error ("KeyError: " ++ key)
  | _ => Except.error "TypeError: not a dict"

/-- Python `str()` of the values the scripts store in result records. -/
def pyValToStr (v : PyVal) : String :=
  match v with
  | .str s => s
  | .int n => toString n
  | .bool b => toString b
  | .dict _ => "dict"

/-- `index:06d` zero padding. -/
def pad6 (n : Nat) : String :=
  let s := toString n
  String.mk (List.replicate (6 - s.length) '0') ++ s

/-- The randomized / clock-dependent inputs of `generate_invoice_data`. -/
structure RandomEnv where
  itemDesc : String
  itemCode : String
  today : String
  generatedAt : String
  batchId : String
deriving DecidableEq

/-- `BTCPayInvoiceGenerator.generate_invoice_data` (generate_invoices.py
lines 78-126): the invoice request dict. Its root keys are `amount`,
`currency`, `posData` and `metadata`; `orderId` exists only inside
`metadata` (the `posData` JSON serialization is kept as a dict here; no
claim inspects it). -/
def generate_invoice_data (env : RandomEnv) (index : Nat) : PyVal :=
  PyVal.dict [
    ("amount", .str "1"),
    ("currency", .str "USD"),
    ("posData", .dict [
      ("invoiceIndex", .int index),
      ("generatedAt", .str env.generatedAt),
      ("batchId", .str env.batchId)]),
    ("metadata", .dict [
      ("orderId", .str ("INV-" ++ env.today ++ "-" ++ pad6 index)),
      ("itemDesc", .str env.itemDesc),
      ("buyerName", .str ("Customer-" ++ pad6 index)),
      ("buyerEmail", .str ("customer" ++ pad6 index ++ "@example.com")),
      ("itemCode", .str env.itemCode),
      ("generationBatch", .bool true)])]

/-- The JSON body fields of an HTTP reply that `create_invoice_async`
reads (`result.get(...)`). -/
structure ReplyBody where
  id : Option String := none
  status : Option String := none
  checkoutLink : Option String := none
  createdTime : Option String := none
  expirationTime : Option String := none
  message : Option String := none
deriving DecidableEq

/-- The observable outcome of one `session.post` call: a response with a
status code and JSON body, a timeout, or some other raised exception. -/
inductive HttpReply where
  | response (status : Nat) (body : ReplyBody)
  | timeout
  | raised (msg : String)
deriving DecidableEq

/-- A record appended to `generated_invoices` on the HTTP-200 path
(lines 150-161). -/
structure InvoiceSuccess where
  index : Nat
  invoice_id : Option String
  order_id : String
  amount : String
  currency : String
  status : Option String
  checkout_link : Option String
deriving DecidableEq

/-- A record appended to `failed_invoices` on a failure path
(lines 169-176, 184-189, 197-202). -/
structure InvoiceFailure where
  index : Nat
  error : String
  order_id : String
  amount : Option String := none
  currency : Option String := none
deriving DecidableEq

/-- The `stats` dictionary (lines 66-72, minus the timestamps). -/
structure GenStats where
  total_requested : Nat := 0
  successful : Nat := 0
  failed : Nat := 0
deriving DecidableEq

/-- The mutable state of a `BTCPayInvoiceGenerator`. -/
structure GenState where
  stats : GenStats := {}
  generated_invoices : List InvoiceSuccess := []
  failed_invoices : List InvoiceFailure := []
deriving DecidableEq

/-- Building the `failed_result` dict of the non-200 branch
(lines 169-176): the field expressions evaluate in dict-literal order, so
`invoice_data['orderId']`, then `invoice_data['amount']`, then
`invoice_data['currency']`; the first `KeyError` aborts the construction. -/
def buildFailedResultFull (invoice_data : PyVal) (index : Nat) (error_msg : String) :
    Except String InvoiceFailure :=
  match pyDictGet invoice_data "orderId" with
  | .error e => Except.error e
  | .ok oid =>
    match pyDictGet invoice_data "amount" with
    | .error e => Except.error e
    | .ok am =>
      match pyDictGet invoice_data "currency" with
      | .error e => Except.error e
      | .ok cur =>
          Except.ok { index := index, error := error_msg, order_id := pyValToStr oid,
                      amount := some (pyValToStr am), currency := some (pyValToStr cur) }

/-- Building the `failed_result` dict of the timeout / generic-exception
handlers (lines 184-189 and 197-202): only `invoice_data['orderId']` is
looked up. -/
def buildFailedResultShort (invoice_data : PyVal) (index : Nat) (error_msg : String) :
    Except String InvoiceFailure :=
  match pyDictGet invoice_data "orderId" with
  | .error e => Except.error e
  | .ok oid =>
      Except.ok { index := index, error := error_msg, order_id := pyValToStr oid }

/-- The `except Exception as e` handler (lines 193-204). An exception
raised while building `failed_result` inside this handler is not caught
by the same `try` statement and escapes the coroutine. -/
def genericExceptionHandler (invoice_data : PyVal) (e : String) (index : Nat)
    (st : GenState) : GenState × Except String Bool :=
  let st := { st with stats := { st.stats with failed := st.stats.failed + 1 } }
  match buildFailedResultShort invoice_data index e with
  | .ok fr => ({ st with failed_invoices := st.failed_invoices ++ [fr] }, Except.ok false)
  | .error e2 => (st, Except.error e2)

/-- The `except asyncio.TimeoutError` handler (lines 180-191); a later
`except` clause of the same `try` cannot catch what this handler raises. -/
def timeoutHandler (invoice_data : PyVal) (index : Nat) (st : GenState) :
    GenState × Except String Bool :=
  let st := { st with stats := { st.stats with failed := st.stats.failed + 1 } }
  match buildFailedResultShort invoice_data index "Request timeout" with
  | .ok fr => ({ st with failed_invoices := st.failed_invoices ++ [fr] }, Except.ok false)
  | .error e2 => (st, Except.error e2)

/-- The `try` body of `create_invoice_async` (lines 139-178): read the
response; on HTTP 200 record a success, otherwise record a failure.
A `KeyError` here propagates (as `.error`) to the surrounding handlers. -/
def tryBody (invoice_data : PyVal) (status : Nat) (body : ReplyBody) (index : Nat)
    (st : GenState) : GenState × Except String Bool :=
  if status == 200 then
    let st := { st with stats := { st.stats with successful := st.stats.successful + 1 } }
    match pyDictGet invoice_data "metadata" with
    | .error e => (st, Except.error e)
    | .ok md =>
      match pyDictGet md "orderId" with
      | .error e => (st, Except.error e)
      | .ok oid =>
        match pyDictGet invoice_data "amount" with
        | .error e => (st, Except.error e)
        | .ok am =>
          match pyDictGet invoice_data "currency" with
          | .error e => (st, Except.error e)
          | .ok cur =>
            let invoice_result : InvoiceSuccess := {
              index := index, invoice_id := body.id, order_id := pyValToStr oid,
              amount := pyValToStr am, currency := pyValToStr cur,
              status := body.status, checkout_link := body.checkoutLink }
            ({ st with generated_invoices := st.generated_invoices ++ [invoice_result] },
              Except.ok true)
  else
    let error_msg := body.message.getD ("HTTP " ++ toString status)
    let st := { st with stats := { st.stats with failed := st.stats.failed + 1 } }
    match buildFailedResultFull invoice_data index error_msg with
    | .ok fr => ({ st with failed_invoices := st.failed_invoices ++ [fr] }, Except.ok false)
    | .error e => (st, Except.error e)

/-- `BTCPayInvoiceGenerator.create_invoice_async` (lines 128-204): run
the `try` body and dispatch exceptions to the matching handler. A value
`.error e` in the result means the coroutine itself raised (later
swallowed by `asyncio.gather(..., return_exceptions=True)`). -/
def create_invoice_async (invoice_data : PyVal) (reply : HttpReply) (index : Nat)
    (st : GenState) : GenState × Except String Bool :=
  match reply with
  | .timeout => timeoutHandler invoice_data index st
  | .raised msg => genericExceptionHandler invoice_data msg index st
  | .response status body =>
      match tryBody invoice_data status body index st with
      | (st2, .error e) => genericExceptionHandler invoice_data e index st2
      | r => r

/-- One batch of `generate_invoices_batch` (lines 254-260): for
`i in range(batch_start, batch_end)` create invoice `i + 1`. The
coroutines run cooperatively on one thread and each mutates the shared
state exactly when it completes; the model applies them in order. -/
def runInvoiceBatch (env : Nat → RandomEnv) (replies : Nat → HttpReply)
    (bstart bend : Nat) (st : GenState) : GenState :=
  (List.range' bstart (bend - bstart)).foldl
    (fun s i =>
      (create_invoice_async (generate_invoice_data (env (i + 1)) (i + 1))
        (replies (i + 1)) (i + 1) s).1)
    st

/-- An observable event of the batch loop: one batch execution, or the
inter-batch rate-limiting sleep (`await asyncio.sleep(delay)`, line 274). -/
inductive GenEvent (δ : Type) where
  | batch (bstart bend : Nat)
  | sleep (d : δ)
deriving DecidableEq

/-- The batch loop of `generate_invoices_batch` (lines 249-274), one
iteration per element of `range(0, count, batch_size)`: run the batch,
then sleep `delay` only when `batch_end < count`. -/
def invoiceLoop (δ : Type) (env : Nat → RandomEnv) (replies : Nat → HttpReply)
    (count batch_size : Nat) (delay : δ) :
    List Nat → GenState → GenState × List (GenEvent δ)
  | [], st => (st, [])
  | bstart :: rest, st =>
      let bend := min (bstart + batch_size) count
      let st2 := runInvoiceBatch env replies bstart bend st
      let tail := invoiceLoop δ env replies count batch_size delay rest st2
      if bend < count then
        (tail.1, GenEvent.batch bstart bend :: GenEvent.sleep delay :: tail.2)
      else
        (tail.1, GenEvent.batch bstart bend :: tail.2)

/-- `BTCPayInvoiceGenerator.generate_invoices_batch` (lines 228-279):
set `total_requested`, then run the batch loop. Returns the final state
and the event trace. -/
def generate_invoices_batch (δ : Type) (env : Nat → RandomEnv) (replies : Nat → HttpReply)
    (count batch_size : Nat) (delay : δ) : GenState × List (GenEvent δ) :=
  invoiceLoop δ env replies count batch_size delay
    (pyRangeStep 0 count batch_size)
    { stats := { total_requested := count } }

/-! ### C1 / C2: the failure paths of create_invoice_async -/

/-- The invoice request dict has no root-level `orderId` key: the lookup
performed by every failure path of `create_invoice_async`
(`invoice_data['orderId']`, lines 173, 188, 201) raises `KeyError`. -/
theorem generate_invoice_data_root_orderId (env : RandomEnv) (i : Nat) :
    pyDictGet (generate_invoice_data env i) "orderId" =
      Except.error "KeyError: orderId" := rfl

/-- Concrete run for the spec scenario of C2 (and the C1 invariant): the
random/clock inputs. -/
def scenarioEnv : Nat → RandomEnv :=
  fun _ => ⟨"Digital Product Purchase", "ITEM-1234", "20251012", "t0", "batch-0"⟩

/-- Replies for the scenario: the invoice API returns HTTP 500 for
requests 3, 6 and 9 and HTTP 200 (with an invoice id) for the other 7. -/
def scenarioReplies : Nat → HttpReply :=
  fun i =>
    if i = 3 ∨ i = 6 ∨ i = 9 then HttpReply.response 500 {}
    else HttpReply.response 200
      { id := some ("inv" ++ toString i), status := some "New",
        checkoutLink := some "link" }

theorem pyRangeStep_ten : pyRangeStep 0 10 10 = [0] := by
  rw [pyRangeStep_eq]
  norm_num
  rw [pyRangeStep_eq]
  norm_num

/-- C1. The per-unit accounting invariant fails on
`create_invoice_async`: in the run with `total = 10`, `batch_size = 10`
in which 3 units fail (HTTP 500) and 7 succeed, each failing unit
increments `failed` twice (once in the non-200 branch, once in the
generic handler entered by the `KeyError` from `invoice_data['orderId']`)
and appends no outcome, so only 7 outcomes are recorded and
`successful + failed = 13 ≠ 10`. -/
theorem invoice_run_outcome_accounting_bug :
    (generate_invoices_batch Unit scenarioEnv scenarioReplies 10 10 ()).1.stats.successful = 7 ∧
    (generate_invoices_batch Unit scenarioEnv scenarioReplies 10 10 ()).1.stats.failed = 6 ∧
    ¬ ((generate_invoices_batch Unit scenarioEnv scenarioReplies 10 10 ()).1.stats.successful +
        (generate_invoices_batch Unit scenarioEnv scenarioReplies 10 10 ()).1.stats.failed = 10) ∧
    ¬ ((generate_invoices_batch Unit scenarioEnv scenarioReplies 10 10 ()).1.generated_invoices.length +
        (generate_invoices_batch Unit scenarioEnv scenarioReplies 10 10 ()).1.failed_invoices.length = 10) := by
  rw [generate_invoices_batch, pyRangeStep_ten]
  refine ⟨rfl, rfl, ?_, ?_⟩ <;> decide

/-- C2. The spec scenario (3 of 10 requests get HTTP 500, concurrency 10)
does not produce `successful = 7, failed = 3` with three failure records:
the code yields `failed = 6` and appends no failure record at all,
because building the failure record evaluates the missing root key
`invoice_data['orderId']`. -/
theorem invoice_http500_scenario_bug :
    (generate_invoices_batch Unit scenarioEnv scenarioReplies 10 10 ()).1.stats.successful = 7 ∧
    ¬ ((generate_invoices_batch Unit scenarioEnv scenarioReplies 10 10 ()).1.stats.failed = 3) ∧
    (generate_invoices_batch Unit scenarioEnv scenarioReplies 10 10 ()).1.failed_invoices = [] := by
  rw [generate_invoices_batch, pyRangeStep_ten]
  refine ⟨rfl, ?_, rfl⟩
  decide

/-! ## generate_addresses.py — address funding (fund_addresses, lines 318-442) -/

/-- Outcome of the network-confirmation check (lines 398-424). -/
inductive VerifyOutcome where
  | found
  | notFound
  | raisedDuringVerify
deriving DecidableEq

/-- Outcome of `wallet.send` for one batch: it raised (line 438), it
returned a falsy tx / txid (line 435), or it created a transaction. For
a created transaction the model also records whether `tx.raw_hex` is
available, how the confirmation check went and what
`manual_broadcast_transaction` would return (it catches all its own
exceptions and returns a bool, lines 444-490). -/
inductive SendOutcome where
  | raised (msg : String)
  | noTxid
  | txCreated (txid : String) (hasRawHex : Bool) (verify : VerifyOutcome) (manualOk : Bool)
deriving DecidableEq

/-- One observable step of the funding loop: the `wallet.send` call
(line 389), the post-creation wait `time.sleep(3)` (line 396), counting
the batch as funded (lines 426-431), and the inter-batch delay
`time.sleep(2)` (line 434). -/
inductive FundEvent where
  | sendCall (bstart blen : Nat)
  | verifyWait
  | countedFunded (blen : Nat) (broadcasted : Bool)
  | interBatchSleep
deriving DecidableEq

/-- The collaborator-facing inputs of one `fund_addresses` run. `send k`
is the outcome of the funding call for the `k`-th batch. -/
structure FundInput where
  walletInitialized : Bool := true
  addresses : List String := []
  balance : Nat := 0
  utxosOk : Bool := true
  send : Nat → SendOutcome

/-- The observable result of a `fund_addresses` run. -/
structure FundResult where
  fundedCount : Nat := 0
  sendCalls : Nat := 0
  events : List FundEvent := []
  earlyError : Option String := none

/-- The `broadcasted` flag of lines 399-424: true when the transaction is
found on the network; otherwise the manual broadcast (direct, or as the
fallback of a raised verification) decides, and it is only attempted
when `tx.raw_hex` exists. -/
def broadcastResolved (hasRawHex : Bool) (verify : VerifyOutcome) (manualOk : Bool) : Bool :=
  match verify with
  | .found => true
  | .notFound => if hasRawHex then manualOk else false
  | .raisedDuringVerify => if hasRawHex then manualOk else false

/-- One iteration of the funding loop (lines 377-440) for batch `k`
starting at `bstart`: build the outputs, call `wallet.send`, and if a
transaction id came back, wait, verify, and count the whole batch as
funded whether or not it was broadcast (lines 426-431), then sleep
between batches; a raised send or a missing txid just continues. -/
def fundBatchStep (inp : FundInput) (k bstart batch_size : Nat) (acc : FundResult) :
    FundResult :=
  let blen := min (bstart + batch_size) inp.addresses.length - bstart
  let acc := { acc with sendCalls := acc.sendCalls + 1,
                        events := acc.events ++ [FundEvent.sendCall bstart blen] }
  match inp.send k with
  | .raised _ => acc
  | .noTxid => acc
  | .txCreated _ hasRawHex verify manualOk =>
      let acc := { acc with events := acc.events ++ [FundEvent.verifyWait] }
      let broadcasted := broadcastResolved hasRawHex verify manualOk
      { acc with fundedCount := acc.fundedCount + blen,
                 events := acc.events ++ [FundEvent.countedFunded blen broadcasted,
                                          FundEvent.interBatchSleep] }

/-- The funding batch loop over the enumerated batch starts
(`i // batch_size` of the source is the position `k` of `i` in
`range(0, len(addresses), batch_size)`). -/
def fundLoop (inp : FundInput) (batch_size : Nat) :
    List (Nat × Nat) → FundResult → FundResult
  | [], acc => acc
  | (k, bstart) :: rest, acc =>
      fundLoop inp batch_size rest (fundBatchStep inp k bstart batch_size acc)

/-- `BTCAddressGenerator.fund_addresses` (generate_addresses.py lines
318-442). `amount_satoshis` and `max_fee_satoshis` are the integer
satoshi values after the float conversions of lines 339-340; the
pre-flight checks (wallet, empty list, balance, UTXOs) run before any
`wallet.send` call. -/
def fund_addresses (inp : FundInput) (amount_satoshis max_fee_satoshis batch_size : Nat) :
    FundResult :=
  if !inp.walletInitialized then
    { earlyError := some "Funding wallet not initialized" }
  else if inp.addresses.isEmpty then
    { earlyError := some "No addresses to fund" }
  else
    let total_needed := (amount_satoshis + max_fee_satoshis) * inp.addresses.length
    if inp.balance < total_needed then
      { earlyError := some "Insufficient balance" }
    else if !inp.utxosOk then
      { earlyError := some "No UTXOs available for spending" }
    else
      fundLoop inp batch_size (pyRangeStep 0 inp.addresses.length batch_size).enum {}

/-- Whether `wallet.send` produced a transaction id for this batch. -/
def sendGotTx (o : SendOutcome) : Bool :=
  match o with
  | .txCreated _ _ _ _ => true
  | _ => false

/-- Number of units in batches whose funding call returned a
transaction id: the reference value for `funded_count`. -/
def txidUnits (inp : FundInput) (batch_size : Nat) : Nat :=
  (((pyRangeStep 0 inp.addresses.length batch_size).enum.filter
      (fun p => sendGotTx (inp.send p.1))).map
    (fun p => min (p.2 + batch_size) inp.addresses.length - p.2)).sum

theorem fundLoop_fundedCount (inp : FundInput) (bs : Nat) :
    ∀ (l : List (Nat × Nat)) (acc : FundResult),
      (fundLoop inp bs l acc).fundedCount =
        acc.fundedCount +
          ((l.filter (fun p => sendGotTx (inp.send p.1))).map
            (fun p => min (p.2 + bs) inp.addresses.length - p.2)).sum := by
  intro l
  induction l with
  | nil => intro acc; simp [fundLoop]
  | cons hd tl ih =>
    intro acc
    obtain ⟨k, bstart⟩ := hd
    rw [fundLoop, ih]
    cases hsend : inp.send k with
    | raised m => simp [fundBatchStep, hsend, List.filter_cons, sendGotTx]
    | noTxid => simp [fundBatchStep, hsend, List.filter_cons, sendGotTx]
    | txCreated t hr v mo =>
        simp [fundBatchStep, hsend, List.filter_cons, sendGotTx]
        omega

/-- The batch sizes of the partition of `n` units sum to `n`. -/
theorem batch_sizes_sum (n bs : Nat) (hbs : 0 < bs) :
    ((pyRangeStep 0 n bs).map (fun s => min (s + bs) n - s)).sum = n := by
  have h := congrArg List.length (allUnits_eq_range n bs hbs)
  rw [List.length_range] at h
  rw [allUnits, List.length_flatten, batchBounds, List.map_map, List.map_map] at h
  have hfun : (List.length ∘ batchUnits) ∘ (fun s => (s, min (s + bs) n)) =
      fun s => min (s + bs) n - s := by
    funext s
    simp [batchUnits, List.length_range', Function.comp]
  rw [hfun] at h
  exact h

/-- C3. Once `wallet.send` returns a transaction id for a batch, all of
the batch's units are counted as funded: `funded_count` equals the
number of units in txid batches, it is unchanged under any change of
the confirmation / fallback-broadcast outcomes (only which sends
produced a txid matters), and when every send produces a txid every
address counts as funded, whatever the confirmation outcomes. -/
theorem funding_counts_ignore_confirmation (inp : FundInput)
    (amount_satoshis max_fee_satoshis bs : Nat) (hbs : 0 < bs)
    (hw : inp.walletInitialized = true) (hne : inp.addresses ≠ [])
    (hbal : ¬ inp.balance < (amount_satoshis + max_fee_satoshis) * inp.addresses.length)
    (hu : inp.utxosOk = true) :
    (fund_addresses inp amount_satoshis max_fee_satoshis bs).fundedCount = txidUnits inp bs ∧
    (∀ inp₂ : FundInput, inp₂.walletInitialized = true → inp₂.utxosOk = true →
      inp₂.addresses = inp.addresses →
      ¬ inp₂.balance < (amount_satoshis + max_fee_satoshis) * inp₂.addresses.length →
      (∀ k, sendGotTx (inp₂.send k) = sendGotTx (inp.send k)) →
      (fund_addresses inp₂ amount_satoshis max_fee_satoshis bs).fundedCount =
        (fund_addresses inp amount_satoshis max_fee_satoshis bs).fundedCount) ∧
    ((∀ k, sendGotTx (inp.send k) = true) →
      (fund_addresses inp amount_satoshis max_fee_satoshis bs).fundedCount =
        inp.addresses.length) := by
  have hne' : inp.addresses.isEmpty = false := by
    simpa [List.isEmpty_iff] using hne
  have main : ∀ inp₃ : FundInput, inp₃.walletInitialized = true → inp₃.utxosOk = true →
      inp₃.addresses.isEmpty = false →
      ¬ inp₃.balance < (amount_satoshis + max_fee_satoshis) * inp₃.addresses.length →
      (fund_addresses inp₃ amount_satoshis max_fee_satoshis bs).fundedCount =
        txidUnits inp₃ bs := by
    intro inp₃ hw3 hu3 hne3 hbal3
    rw [fund_addresses]
    simp only [hw3, hu3, hne3, Bool.not_true, Bool.false_eq_true, if_false,
      if_neg hbal3]
    rw [fundLoop_fundedCount]
    simp [txidUnits]
  refine ⟨main inp hw hu hne' hbal, ?_, ?_⟩
  · intro inp₂ hw2 hu2 haddr hbal2 hshape
    rw [main inp₂ hw2 hu2 (by rw [haddr]; exact hne') hbal2, main inp hw hu hne' hbal]
    unfold txidUnits
    rw [haddr]
    have hfilter : List.filter (fun p => sendGotTx (inp₂.send p.1))
          (pyRangeStep 0 inp.addresses.length bs).enum
        = List.filter (fun p => sendGotTx (inp.send p.1))
          (pyRangeStep 0 inp.addresses.length bs).enum := by
      apply List.filter_congr
      intro p _
      rw [hshape p.1]
    rw [hfilter]
  · intro hall
    rw [main inp hw hu hne' hbal]
    unfold txidUnits
    rw [List.filter_eq_self.mpr (fun p _ => hall p.1)]
    have henum : (pyRangeStep 0 inp.addresses.length bs).enum.map
        (fun p => min (p.2 + bs) inp.addresses.length - p.2) =
        (pyRangeStep 0 inp.addresses.length bs).map
          (fun s => min (s + bs) inp.addresses.length - s) := by
      have h2 := (pyRangeStep 0 inp.addresses.length bs).enum_map_snd
      calc (pyRangeStep 0 inp.addresses.length bs).enum.map
            (fun p => min (p.2 + bs) inp.addresses.length - p.2)
          = ((pyRangeStep 0 inp.addresses.length bs).enum.map Prod.snd).map
              (fun s => min (s + bs) inp.addresses.length - s) := by
            rw [List.map_map]
            rfl
        _ = (pyRangeStep 0 inp.addresses.length bs).map
              (fun s => min (s + bs) inp.addresses.length - s) := by rw [h2]
    rw [henum, batch_sizes_sum inp.addresses.length bs hbs]

/-- Scenario input for the C3 witness: three addresses, batch size 2,
both sends create a transaction but neither is ever confirmed
(`notFound` without raw hex, and a raised verification with a failing
manual broadcast). -/
def fundScenarioAllTx : FundInput where
  addresses := ["a1", "a2", "a3"]
  balance := 1000
  send := fun k =>
    if k = 0 then SendOutcome.txCreated "t0" false VerifyOutcome.notFound false
    else SendOutcome.txCreated "t1" true VerifyOutcome.raisedDuringVerify false

/-- Witness for C3 on `fundScenarioAllTx`. -/
theorem funding_counts_ignore_confirmation_witness :
    (fund_addresses fundScenarioAllTx 2 1 2).fundedCount = txidUnits fundScenarioAllTx 2 ∧
    ((∀ k, sendGotTx (fundScenarioAllTx.send k) = true) →
      (fund_addresses fundScenarioAllTx 2 1 2).fundedCount =
        fundScenarioAllTx.addresses.length) := by
  have h := funding_counts_ignore_confirmation fundScenarioAllTx 2 1 2 (by decide) rfl
    (by decide) (by decide) rfl
  exact ⟨h.1, h.2.2⟩

/-- C4. Insufficient balance is a single pre-flight check: when the
wallet balance is strictly below `(amount + fee) * len(addresses)`
(lines 343-348), the run stops with the balance error before any
`wallet.send` call and funds nothing. -/
theorem insufficient_balance_fails_fast (inp : FundInput)
    (amount_satoshis max_fee_satoshis bs : Nat)
    (hw : inp.walletInitialized = true) (hne : inp.addresses ≠ [])
    (hbal : inp.balance < (amount_satoshis + max_fee_satoshis) * inp.addresses.length) :
    (fund_addresses inp amount_satoshis max_fee_satoshis bs).earlyError =
      some "Insufficient balance" ∧
    (fund_addresses inp amount_satoshis max_fee_satoshis bs).sendCalls = 0 ∧
    (fund_addresses inp amount_satoshis max_fee_satoshis bs).fundedCount = 0 := by
  have hne' : inp.addresses.isEmpty = false := by
    simpa [List.isEmpty_iff] using hne
  rw [fund_addresses]
  simp [hw, hne', hbal]

/-- Scenario input for the C4 witness: wallet balance 100, 10 addresses. -/
def fundScenarioUnderfunded : FundInput where
  addresses := List.replicate 10 "tb1q"
  balance := 100
  send := fun _ => SendOutcome.noTxid

/-- Witness for C4 at the spec's numbers: balance 100, 10 addresses,
amount 20, fee 1 per unit: `(20 + 1) * 10 = 210 > 100`. -/
theorem insufficient_balance_fails_fast_witness :
    (fund_addresses fundScenarioUnderfunded 20 1 50).earlyError =
      some "Insufficient balance" ∧
    (fund_addresses fundScenarioUnderfunded 20 1 50).sendCalls = 0 ∧
    (fund_addresses fundScenarioUnderfunded 20 1 50).fundedCount = 0 :=
  insufficient_balance_fails_fast fundScenarioUnderfunded 20 1 50 rfl
    (by decide) (by decide)

/-! ### C5: the inter-batch delay -/

/-- Whether an event of the invoice batch loop is the rate-limiting
sleep. -/
def isSleepEvent {δ : Type} (e : GenEvent δ) : Bool :=
  match e with
  | .sleep _ => true
  | .batch _ _ => false

/-- Whether a funding-loop event is the inter-batch `time.sleep(2)`. -/
def isInterBatchSleep (e : FundEvent) : Bool :=
  match e with
  | .interBatchSleep => true
  | _ => false

/-- Shape of the invoice generator's event trace, from any batch start:
one sleep fewer than there are batches, every sleep carries the
configured delay, and the final event is the last batch — no trailing
sleep. -/
theorem invoiceLoop_trace (δ : Type) (env : Nat → RandomEnv) (replies : Nat → HttpReply)
    (count bs : Nat) (delay : δ) (hbs : 0 < bs) :
    ∀ n start st, count - start ≤ n → start < count →
      (((invoiceLoop δ env replies count bs delay (pyRangeStep start count bs) st).2.filter
          isSleepEvent).length = (pyRangeStep start count bs).length - 1) ∧
      (∀ e ∈ (invoiceLoop δ env replies count bs delay (pyRangeStep start count bs) st).2,
          isSleepEvent e = true → e = GenEvent.sleep delay) ∧
      ((invoiceLoop δ env replies count bs delay (pyRangeStep start count bs) st).2.getLast? =
        some (GenEvent.batch (start + bs * ((count - 1 - start) / bs)) count)) := by
  intro n
  induction n with
  | zero => intro start st hle hlt; omega
  | succ n ih =>
    intro start st hle hlt
    rw [pyRangeStep_advance start count bs ⟨hbs, hlt⟩]
    by_cases hnext : start + bs < count
    · have hmin : min (start + bs) count = start + bs := by omega
      obtain ⟨hlen, hmem, hlast⟩ := ih (start + bs)
        (runInvoiceBatch env replies start (start + bs) st) (by omega) hnext
      rw [invoiceLoop]
      simp only [hmin, if_pos hnext]
      have hform : start + bs * ((count - 1 - start) / bs) =
          start + bs + bs * ((count - 1 - (start + bs)) / bs) := by
        have h1 : bs ≤ count - 1 - start := by omega
        have h2 : count - 1 - (start + bs) = (count - 1 - start) - bs := by omega
        have hdiv : (count - 1 - start) / bs = (count - 1 - (start + bs)) / bs + 1 := by
          rw [h2, Nat.div_eq_sub_div hbs h1]
        rw [hdiv, Nat.mul_add, Nat.mul_one]
        omega
      refine ⟨?_, ?_, ?_⟩
      · have hlen2 : 0 < (pyRangeStep (start + bs) count bs).length := by
          rw [pyRangeStep_advance (start + bs) count bs ⟨hbs, hnext⟩]
          simp
        simp only [List.filter_cons, isSleepEvent, List.length_cons]
        simp only [Bool.false_eq_true, if_false, if_true]
        simp only [List.length_cons]
        omega
      · intro e he hse
        simp only [List.mem_cons] at he
        rcases he with rfl | rfl | he
        · simp [isSleepEvent] at hse
        · rfl
        · exact hmem e he hse
      · rw [hform]
        cases htail : (invoiceLoop δ env replies count bs delay
            (pyRangeStep (start + bs) count bs)
            (runInvoiceBatch env replies start (start + bs) st)).2 with
        | nil => rw [htail] at hlast; simp at hlast
        | cons x xs =>
            rw [htail] at hlast
            rw [List.getLast?_cons_cons, List.getLast?_cons_cons]
            exact hlast
    · have hmin : min (start + bs) count = count := by omega
      have hdiv : (count - 1 - start) / bs = 0 := Nat.div_eq_of_lt (by omega)
      rw [invoiceLoop, pyRangeStep_stopped (start + bs) count bs (by omega), invoiceLoop]
      simp only [hmin]
      rw [if_neg (lt_irrefl count)]
      refine ⟨?_, ?_, ?_⟩
      · simp [isSleepEvent]
      · intro e he hse
        simp only [List.mem_cons, List.not_mem_nil, or_false] at he
        rw [he] at hse
        simp [isSleepEvent] at hse
      · simp [hdiv]

/-- The invoice generator's event trace does not depend on the random
inputs, the replies, or the accumulated state: the rate limiter is
non-adaptive. -/
theorem invoiceLoop_trace_independent (δ : Type) (env env₂ : Nat → RandomEnv)
    (replies replies₂ : Nat → HttpReply) (count bs : Nat) (delay : δ) :
    ∀ (l : List Nat) (st st₂ : GenState),
      (invoiceLoop δ env replies count bs delay l st).2 =
        (invoiceLoop δ env₂ replies₂ count bs delay l st₂).2 := by
  intro l
  induction l with
  | nil => intro st st₂; rfl
  | cons hd tl ih =>
    intro st st₂
    rw [invoiceLoop, invoiceLoop]
    by_cases hc : min (hd + bs) count < count
    · simp only [if_pos hc]
      rw [ih]
    · simp only [if_neg hc]
      rw [ih]

/-- The funding loop sleeps the fixed inter-batch delay exactly after
the batches whose send produced a transaction id — including the final
one, and never after a failed batch. -/
theorem fundLoop_interBatchSleeps (inp : FundInput) (bs : Nat) :
    ∀ (l : List (Nat × Nat)) (acc : FundResult),
      ((fundLoop inp bs l acc).events.filter isInterBatchSleep).length =
        (acc.events.filter isInterBatchSleep).length +
          (l.filter (fun p => sendGotTx (inp.send p.1))).length := by
  intro l
  induction l with
  | nil => intro acc; simp [fundLoop]
  | cons hd tl ih =>
    intro acc
    obtain ⟨k, bstart⟩ := hd
    rw [fundLoop, ih]
    cases hsend : inp.send k with
    | raised m =>
        simp [fundBatchStep, hsend, List.filter_cons, sendGotTx, List.filter_append,
          isInterBatchSleep]
    | noTxid =>
        simp [fundBatchStep, hsend, List.filter_cons, sendGotTx, List.filter_append,
          isInterBatchSleep]
    | txCreated t hr v mo =>
        simp [fundBatchStep, hsend, List.filter_cons, sendGotTx, List.filter_append,
          isInterBatchSleep]
        omega

/-- A single-batch funding run whose send returns a transaction id but
whose network confirmation fails. -/
def fundScenarioOneBatch : FundInput where
  addresses := ["a1"]
  balance := 1000
  send := fun _ => SendOutcome.txCreated "t0" true VerifyOutcome.notFound false

theorem pyRangeStep_one : pyRangeStep 0 1 50 = [0] := by
  rw [pyRangeStep_eq]
  norm_num
  rw [pyRangeStep_eq]
  norm_num

/-- Counterexample to C5 as stated: the address funder
(`generate_addresses.py` line 434) does not skip the inter-batch delay
after the final batch — in a run with one single (final) batch whose
send returns a transaction id, the trace ends with the inter-batch
sleep. -/
theorem funder_sleeps_after_final_batch :
    ((fund_addresses fundScenarioOneBatch 2 1 50).events.getLast? =
      some FundEvent.interBatchSleep) ∧
    ((fund_addresses fundScenarioOneBatch 2 1 50).events.filter isInterBatchSleep).length = 1 := by
  have h2 : fund_addresses fundScenarioOneBatch 2 1 50 =
      fundLoop fundScenarioOneBatch 50 ([0] : List Nat).enum {} := by
    rw [fund_addresses]
    norm_num [fundScenarioOneBatch, pyRangeStep_one]
  rw [h2]
  exact ⟨rfl, rfl⟩

/-- C5 (amended). The invoice generator sleeps the fixed configured
delay between consecutive batches and skips it after the final batch
(one sleep fewer than batches, every sleep equal to the configured
delay, the trace ends with the final batch), and its trace is
independent of the per-unit outcomes (non-adaptive). The address
funder instead sleeps its fixed 2-second delay after exactly the
batches whose funding call returned a transaction id — including the
final batch — and not after a batch whose call failed. -/
theorem inter_batch_delay_amended (δ : Type) (env : Nat → RandomEnv)
    (replies : Nat → HttpReply) (count bs : Nat) (delay : δ)
    (hcount : 0 < count) (hbs : 0 < bs)
    (inp : FundInput) (amount_satoshis max_fee_satoshis : Nat)
    (hw : inp.walletInitialized = true) (hne : inp.addresses ≠ [])
    (hbal : ¬ inp.balance <
      (amount_satoshis + max_fee_satoshis) * inp.addresses.length)
    (hu : inp.utxosOk = true) :
    (((generate_invoices_batch δ env replies count bs delay).2.filter isSleepEvent).length =
        (pyRangeStep 0 count bs).length - 1) ∧
    (∀ e ∈ (generate_invoices_batch δ env replies count bs delay).2,
        isSleepEvent e = true → e = GenEvent.sleep delay) ∧
    ((generate_invoices_batch δ env replies count bs delay).2.getLast? =
      some (GenEvent.batch (lastBatchStart count bs) count)) ∧
    (∀ (env₂ : Nat → RandomEnv) (replies₂ : Nat → HttpReply),
        (generate_invoices_batch δ env₂ replies₂ count bs delay).2 =
          (generate_invoices_batch δ env replies count bs delay).2) ∧
    (((fund_addresses inp amount_satoshis max_fee_satoshis bs).events.filter
        isInterBatchSleep).length =
      ((pyRangeStep 0 inp.addresses.length bs).enum.filter
        (fun p => sendGotTx (inp.send p.1))).length) := by
  obtain ⟨hlen, hmem, hlast⟩ := invoiceLoop_trace δ env replies count bs delay hbs
    count 0 { stats := { total_requested := count } } (by omega) hcount
  refine ⟨?_, ?_, ?_, ?_, ?_⟩
  · rw [generate_invoices_batch]
    exact hlen
  · rw [generate_invoices_batch]
    exact hmem
  · rw [generate_invoices_batch]
    rw [hlast]
    unfold lastBatchStart
    norm_num
  · intro env₂ replies₂
    rw [generate_invoices_batch, generate_invoices_batch]
    exact invoiceLoop_trace_independent δ env₂ env replies₂ replies count bs delay _ _ _
  · have hne' : inp.addresses.isEmpty = false := by
      simpa [List.isEmpty_iff] using hne
    rw [fund_addresses]
    simp only [hw, hu, hne', Bool.not_true, Bool.false_eq_true, if_false, if_neg hbal]
    rw [fundLoop_interBatchSleeps]
    simp

/-- Witness for the amended C5: invoice run with `count = 5`,
`batch_size = 2`, delay `1`; funding run on `fundScenarioAllTx` with
amount 2, fee 1 per unit. -/
theorem inter_batch_delay_amended_witness :
    (((generate_invoices_batch Nat scenarioEnv scenarioReplies 5 2 1).2.filter
        isSleepEvent).length = (pyRangeStep 0 5 2).length - 1) ∧
    (∀ e ∈ (generate_invoices_batch Nat scenarioEnv scenarioReplies 5 2 1).2,
        isSleepEvent e = true → e = GenEvent.sleep 1) ∧
    ((generate_invoices_batch Nat scenarioEnv scenarioReplies 5 2 1).2.getLast? =
      some (GenEvent.batch (lastBatchStart 5 2) 5)) ∧
    (∀ (env₂ : Nat → RandomEnv) (replies₂ : Nat → HttpReply),
        (generate_invoices_batch Nat env₂ replies₂ 5 2 1).2 =
          (generate_invoices_batch Nat scenarioEnv scenarioReplies 5 2 1).2) ∧
    (((fund_addresses fundScenarioAllTx 2 1 2).events.filter isInterBatchSleep).length =
      ((pyRangeStep 0 fundScenarioAllTx.addresses.length 2).enum.filter
        (fun p => sendGotTx (fundScenarioAllTx.send p.1))).length) :=
  inter_batch_delay_amended Nat scenarioEnv scenarioReplies 5 2 1 (by decide) (by decide)
    fundScenarioAllTx 2 1 rfl (by decide) (by decide) rfl

/-! ## Config merging (merge_config_with_args) -/

/-- Python truthiness test `not args.x` for an argparse string option:
true for `None` and for the empty string. -/
def pyStrFalsy (o : Option String) : Bool :=
  match o with
  | none => true
  | some s => s == ""

/-- The CLI argument namespace of generate_invoices.py with its
argparse defaults (lines 476-488). -/
structure InvArgs where
  api_key : Option String := none
  store_id : Option String := none
  base_url : String := "https://btcpay.example.com"
  count : Nat := 1000
  batch_size : Nat := 50
  delay : ℚ := 0.1
  output_dir : String := "invoice_results"
deriving DecidableEq

/-- The recognized fields of a generate_invoices config section (either
the legacy root object or the `_invoice_generation` section); a missing
key is `none`. -/
structure InvConfigFields where
  api_key : Option String := none
  store_id : Option String := none
  base_url : Option String := none
  count : Option Nat := none
  batch_size : Option Nat := none
  delay : Option ℚ := none
  output_dir : Option String := none
deriving DecidableEq

/-- Shape of a generate_invoices config file, selected by the presence
of the `_invoice_generation` key (line 412). -/
inductive InvConfig where
  | legacy (fields : InvConfigFields)
  | universal (invoice_generation : InvConfigFields)

/-- The universal branch of generate_invoices.merge_config_with_args
(lines 412-435). -/
def mergeInvUniversal (c : InvConfigFields) (args : InvArgs) : InvArgs :=
  let args := match c.api_key with
    | some v => if pyStrFalsy args.api_key then { args with api_key := some v } else args
    | none => args
  let args := match c.store_id with
    | some v => if pyStrFalsy args.store_id then { args with store_id := some v } else args
    | none => args
  let args := match c.base_url with
    | some v => if args.base_url == "https://btcpay.example.com" then { args with base_url := v } else args
    | none => args
  let args := match c.count with
    | some v => if args.count == 1000 then { args with count := v } else args
    | none => args
  let args := match c.batch_size with
    | some v => if args.batch_size == 50 then { args with batch_size := v } else args
    | none => args
  let args := match c.delay with
    | some v => if args.delay == 0.1 then { args with delay := v } else args
    | none => args
  let args := match c.output_dir with
    | some v => if args.output_dir == "invoice_results" then { args with output_dir := v } else args
    | none => args
  args

/-- The legacy branch of generate_invoices.merge_config_with_args
(lines 437-458) — textually the same per-field rules applied to the
root object. -/
def mergeInvLegacy (c : InvConfigFields) (args : InvArgs) : InvArgs :=
  let args := match c.api_key with
    | some v => if pyStrFalsy args.api_key then { args with api_key := some v } else args
    | none => args
  let args := match c.store_id with
    | some v => if pyStrFalsy args.store_id then { args with store_id := some v } else args
    | none => args
  let args := match c.base_url with
    | some v => if args.base_url == "https://btcpay.example.com" then { args with base_url := v } else args
    | none => args
  let args := match c.count with
    | some v => if args.count == 1000 then { args with count := v } else args
    | none => args
  let args := match c.batch_size with
    | some v => if args.batch_size == 50 then { args with batch_size := v } else args
    | none => args
  let args := match c.delay with
    | some v => if args.delay == 0.1 then { args with delay := v } else args
    | none => args
  let args := match c.output_dir with
    | some v => if args.output_dir == "invoice_results" then { args with output_dir := v } else args
    | none => args
  args

/-- `merge_config_with_args` of generate_invoices.py (lines 407-460). -/
def merge_config_with_args_invoices (config : InvConfig) (args : InvArgs) : InvArgs :=
  match config with
  | .universal c => mergeInvUniversal c args
  | .legacy c => mergeInvLegacy c args

/-- The CLI argument namespace of generate_addresses.py with its
argparse defaults (lines 764-777). -/
structure AddrArgs where
  mainnet : Bool := false
  amount : ℚ := 0.001
  count : Nat := 1000
  no_funding : Bool := false
  output : String := "generated_addresses.json"
  private_key : Option String := none
  mnemonic : Option String := none
  key_file : Option String := none
  wallet_name : String := "wallet_0"
  max_fee : ℚ := 0.0001
  batch_size : Nat := 50
  derivation_mode : Bool := false
  start_index : Nat := 0
deriving DecidableEq

/-- The `_address_generation` section of a universal config. -/
structure AddrGenSection where
  amount : Option ℚ := none
  count : Option Nat := none
  no_funding : Option Bool := none
  output : Option String := none
  derivation_mode : Option Bool := none
  start_index : Option Nat := none
  wallet_name : Option String := none
  max_fee : Option ℚ := none
  batch_size : Option Nat := none
deriving DecidableEq

/-- The `_network_settings` section. -/
structure NetworkSection where
  mainnet : Option Bool := none
deriving DecidableEq

/-- The `_key_import_options` section. -/
structure KeyImportSection where
  private_key : Option String := none
  mnemonic : Option String := none
  key_file : Option String := none
deriving DecidableEq

/-- The root fields of a legacy generate_addresses config. -/
structure AddrLegacyFields where
  mainnet : Option Bool := none
  amount : Option ℚ := none
  count : Option Nat := none
  no_funding : Option Bool := none
  output : Option String := none
  derivation_mode : Option Bool := none
  start_index : Option Nat := none
  private_key : Option String := none
  mnemonic : Option String := none
  key_file : Option String := none
  wallet_name : Option String := none
  max_fee : Option ℚ := none
  batch_size : Option Nat := none
deriving DecidableEq

/-- Shape of a generate_addresses config file, selected by the presence
of the `_address_generation` key (line 641). -/
inductive AddrConfig where
  | legacy (fields : AddrLegacyFields)
  | universal (addr : AddrGenSection) (network : Option NetworkSection)
      (keys : Option KeyImportSection)

/-! Per-field rules of generate_addresses.merge_config_with_args. Each
step is one `if` statement of the source; the universal and the legacy
branch apply textually identical rules to their respective dicts except
for the key-import options (see `stepKeyImportTruthy` vs
`stepKeyImportPresent`) — the steps are therefore shared and the two
branch functions compose them in source order. -/

/-- `if not args.mainnet and cfg.get('mainnet', False): args.mainnet = cfg['mainnet']`
(lines 648-649 / 699-700). -/
def stepMainnet (c : Option Bool) (args : AddrArgs) : AddrArgs :=
  match c with
  | some v => if !args.mainnet && v then { args with mainnet := v } else args
  | none => args

/-- `if args.amount == 0.001 and 'amount' in cfg: ...` (lines 652-653 / 702-703). -/
def stepAmount (c : Option ℚ) (args : AddrArgs) : AddrArgs :=
  match c with
  | some v => if args.amount == 0.001 then { args with amount := v } else args
  | none => args

/-- `if args.count == 1000 and 'count' in cfg: ...` (lines 655-656 / 705-706). -/
def stepCount (c : Option Nat) (args : AddrArgs) : AddrArgs :=
  match c with
  | some v => if args.count == 1000 then { args with count := v } else args
  | none => args

/-- `if not args.no_funding and cfg.get('no_funding', False): ...`
(lines 658-659 / 708-709). -/
def stepNoFunding (c : Option Bool) (args : AddrArgs) : AddrArgs :=
  match c with
  | some v => if !args.no_funding && v then { args with no_funding := v } else args
  | none => args

/-- `if args.output == 'generated_addresses.json' and 'output' in cfg: ...`
(lines 661-662 / 711-712). -/
def stepOutput (c : Option String) (args : AddrArgs) : AddrArgs :=
  match c with
  | some v => if args.output == "generated_addresses.json" then { args with output := v } else args
  | none => args

/-- `if not args.derivation_mode and cfg.get('derivation_mode', False): ...`
(lines 665-666 / 715-716). -/
def stepDerivationMode (c : Option Bool) (args : AddrArgs) : AddrArgs :=
  match c with
  | some v => if !args.derivation_mode && v then { args with derivation_mode := v } else args
  | none => args

/-- `if args.start_index == 0 and 'start_index' in cfg: ...`
(lines 668-669 / 718-719). -/
def stepStartIndex (c : Option Nat) (args : AddrArgs) : AddrArgs :=
  match c with
  | some v => if args.start_index == 0 then { args with start_index := v } else args
  | none => args

/-- Universal-branch key import: `if not args.X and 'X' in key_config
and key_config['X']:` — the value must be truthy (lines 672-679).
`get`/`set` abstract over which of the three key options is read and
written. -/
def stepKeyImportTruthy (c : Option String) (get : AddrArgs → Option String)
    (set : AddrArgs → Option String → AddrArgs) (args : AddrArgs) : AddrArgs :=
  match c with
  | some v => if pyStrFalsy (get args) && v != "" then set args (some v) else args
  | none => args

/-- Legacy-branch key import: `if not args.X and 'X' in config:` — no
truthiness test on the value (lines 721-728). -/
def stepKeyImportPresent (c : Option String) (get : AddrArgs → Option String)
    (set : AddrArgs → Option String → AddrArgs) (args : AddrArgs) : AddrArgs :=
  match c with
  | some v => if pyStrFalsy (get args) then set args (some v) else args
  | none => args

/-- `args.wallet_name = cfg['wallet_name'] if present else 'wallet_0'` —
unconditional (lines 682-685 / 731-734). -/
def stepWalletName (c : Option String) (args : AddrArgs) : AddrArgs :=
  match c with
  | some v => { args with wallet_name := v }
  | none => { args with wallet_name := "wallet_0" }

/-- `args.max_fee = cfg['max_fee'] if present else 0.0001` —
unconditional (lines 687-690 / 736-739). -/
def stepMaxFee (c : Option ℚ) (args : AddrArgs) : AddrArgs :=
  match c with
  | some v => { args with max_fee := v }
  | none => { args with max_fee := 0.0001 }

/-- `args.batch_size = cfg['batch_size'] if present else 50` —
unconditional (lines 692-695 / 741-744). -/
def stepBatchSize (c : Option Nat) (args : AddrArgs) : AddrArgs :=
  match c with
  | some v => { args with batch_size := v }
  | none => { args with batch_size := 50 }

/-- The universal branch of generate_addresses.merge_config_with_args
(lines 641-695): the steps in source order over the
`_address_generation`, `_network_settings` and `_key_import_options`
sections; a missing section defaults to empty (`config.get(..., \x7b\x7d)`). -/
def mergeAddrUniversal (addr : AddrGenSection) (network : Option NetworkSection)
    (keys : Option KeyImportSection) (args : AddrArgs) : AddrArgs :=
  let network_config := network.getD {}
  let key_config := keys.getD {}
  let args := stepMainnet network_config.mainnet args
  let args := stepAmount addr.amount args
  let args := stepCount addr.count args
  let args := stepNoFunding addr.no_funding args
  let args := stepOutput addr.output args
  let args := stepDerivationMode addr.derivation_mode args
  let args := stepStartIndex addr.start_index args
  let args := stepKeyImportTruthy key_config.private_key (fun a => a.private_key)
    (fun a v => { a with private_key := v }) args
  let args := stepKeyImportTruthy key_config.mnemonic (fun a => a.mnemonic)
    (fun a v => { a with mnemonic := v }) args
  let args := stepKeyImportTruthy key_config.key_file (fun a => a.key_file)
    (fun a v => { a with key_file := v }) args
  let args := stepWalletName addr.wallet_name args
  let args := stepMaxFee addr.max_fee args
  let args := stepBatchSize addr.batch_size args
  args

/-- The legacy branch of generate_addresses.merge_config_with_args
(lines 697-745): the same steps in the same order over the root fields,
with the present-not-truthy key-import rule. -/
def mergeAddrLegacy (f : AddrLegacyFields) (args : AddrArgs) : AddrArgs :=
  let args := stepMainnet f.mainnet args
  let args := stepAmount f.amount args
  let args := stepCount f.count args
  let args := stepNoFunding f.no_funding args
  let args := stepOutput f.output args
  let args := stepDerivationMode f.derivation_mode args
  let args := stepStartIndex f.start_index args
  let args := stepKeyImportPresent f.private_key (fun a => a.private_key)
    (fun a v => { a with private_key := v }) args
  let args := stepKeyImportPresent f.mnemonic (fun a => a.mnemonic)
    (fun a v => { a with mnemonic := v }) args
  let args := stepKeyImportPresent f.key_file (fun a => a.key_file)
    (fun a v => { a with key_file := v }) args
  let args := stepWalletName f.wallet_name args
  let args := stepMaxFee f.max_fee args
  let args := stepBatchSize f.batch_size args
  args

/-- `merge_config_with_args` of generate_addresses.py (lines 627-746). -/
def merge_config_with_args_addresses (config : AddrConfig) (args : AddrArgs) : AddrArgs :=
  match config with
  | .universal addr network keys => mergeAddrUniversal addr network keys args
  | .legacy f => mergeAddrLegacy f args

/-- The legacy config carrying the same field values as a universal
config: the sections' fields placed at the root (missing sections
contribute missing fields). -/
def addrSectionsToLegacy (addr : AddrGenSection) (network : Option NetworkSection)
    (keys : Option KeyImportSection) : AddrLegacyFields :=
  { mainnet := (network.getD {}).mainnet
    amount := addr.amount
    count := addr.count
    no_funding := addr.no_funding
    output := addr.output
    derivation_mode := addr.derivation_mode
    start_index := addr.start_index
    private_key := (keys.getD {}).private_key
    mnemonic := (keys.getD {}).mnemonic
    key_file := (keys.getD {}).key_file
    wallet_name := addr.wallet_name
    max_fee := addr.max_fee
    batch_size := addr.batch_size }

/-- A key-import config field that is absent or non-empty. -/
def keyFieldOk (o : Option String) : Bool :=
  match o with
  | none => true
  | some s => s != ""

/-- CLI arguments with explicitly supplied
`--wallet-name main_wallet --max-fee 0.002 --batch-size 25`, all
different from the hardcoded defaults. -/
def cliArgsExplicit : AddrArgs :=
  { wallet_name := "main_wallet", max_fee := 0.002, batch_size := 25 }

/-- C7. The generate_addresses merge overwrites explicitly supplied CLI
values for `wallet_name`, `max_fee` and `batch_size` unconditionally
(lines 682-695 and 730-744): merging even an empty legacy config resets
them to the hardcoded defaults, and a config value replaces the CLI
value — contradicting the claim (and the function's own docstring,
line 630: command line arguments take precedence). -/
theorem merge_clobbers_cli_values_bug :
    (merge_config_with_args_addresses (AddrConfig.legacy {}) cliArgsExplicit).wallet_name
      = "wallet_0" ∧
    (merge_config_with_args_addresses (AddrConfig.legacy {}) cliArgsExplicit).max_fee
      = 0.0001 ∧
    (merge_config_with_args_addresses (AddrConfig.legacy {}) cliArgsExplicit).batch_size
      = 50 ∧
    (merge_config_with_args_addresses
        (AddrConfig.legacy { wallet_name := some "cfg_wallet" }) cliArgsExplicit).wallet_name
      = "cfg_wallet" ∧
    ¬ cliArgsExplicit.wallet_name = "wallet_0" ∧
    ¬ cliArgsExplicit.max_fee = 0.0001 ∧
    ¬ cliArgsExplicit.batch_size = 50 :=
  ⟨rfl, rfl, rfl, rfl, by decide, by norm_num [cliArgsExplicit], by decide⟩

/-- Counterexample to C8 as stated: a config whose `private_key` is
present but empty. With pure default CLI arguments the legacy shape
merges it as the empty string (line 721: no truthiness test on the
value), while the equivalent universal shape leaves the argument `None`
(line 672 requires `key_config['private_key']` to be truthy): the
merged argument sets differ. -/
theorem config_shape_roundtrip_fails :
    (merge_config_with_args_addresses
        (AddrConfig.legacy (addrSectionsToLegacy {} none
          (some { private_key := some "" }))) {}).private_key = some "" ∧
    (merge_config_with_args_addresses
        (AddrConfig.universal {} none (some { private_key := some "" })) {}).private_key
      = none ∧
    ¬ (merge_config_with_args_addresses
        (AddrConfig.universal {} none (some { private_key := some "" })) {} =
       merge_config_with_args_addresses
        (AddrConfig.legacy (addrSectionsToLegacy {} none
          (some { private_key := some "" }))) {}) := by
  refine ⟨rfl, rfl, fun h => ?_⟩
  have hpk : (none : Option String) = some "" := congrArg AddrArgs.private_key h
  exact Option.noConfusion hpk

/-- Under a non-empty (or absent) config value, the universal
truthiness-tested key-import rule and the legacy presence-tested rule
agree. -/
theorem stepKeyImport_eq (c : Option String) (get : AddrArgs → Option String)
    (set : AddrArgs → Option String → AddrArgs) (args : AddrArgs)
    (h : keyFieldOk c = true) :
    stepKeyImportTruthy c get set args = stepKeyImportPresent c get set args := by
  cases c with
  | none => rfl
  | some v =>
    simp only [keyFieldOk] at h
    simp only [stepKeyImportTruthy, stepKeyImportPresent, h, Bool.and_true]

/-- C8 (amended). Merging a universal config and the equivalent legacy
config with pure default CLI arguments yields identical argument sets,
provided every key-import field present in the config is non-empty; the
generate_invoices merge round-trips unconditionally (its two branches
apply identical rules). (A present-but-empty key-import field breaks
the round-trip: the legacy shape copies the empty string and the
universal shape keeps the default.) -/
theorem config_shape_roundtrip_amended (addr : AddrGenSection)
    (network : Option NetworkSection) (keys : Option KeyImportSection)
    (hpk : keyFieldOk (keys.getD {}).private_key = true)
    (hmn : keyFieldOk (keys.getD {}).mnemonic = true)
    (hkf : keyFieldOk (keys.getD {}).key_file = true) :
    merge_config_with_args_addresses (AddrConfig.universal addr network keys) {} =
      merge_config_with_args_addresses
        (AddrConfig.legacy (addrSectionsToLegacy addr network keys)) {} ∧
    (∀ (c : InvConfigFields) (args : InvArgs),
      merge_config_with_args_invoices (InvConfig.universal c) args =
        merge_config_with_args_invoices (InvConfig.legacy c) args) := by
  refine ⟨?_, fun c args => rfl⟩
  show mergeAddrUniversal addr network keys {} =
    mergeAddrLegacy (addrSectionsToLegacy addr network keys) {}
  rw [mergeAddrUniversal, mergeAddrLegacy]
  simp only [addrSectionsToLegacy]
  rw [stepKeyImport_eq _ _ _ _ hpk, stepKeyImport_eq _ _ _ _ hmn,
    stepKeyImport_eq _ _ _ _ hkf]

/-- Witness for the amended C8: a populated universal config (count
2000, wallet `w1`, non-empty mnemonic, mainnet flag) against its
legacy equivalent, plus the invoices round-trip at a sample section. -/
theorem config_shape_roundtrip_amended_witness :
    merge_config_with_args_addresses
      (AddrConfig.universal
        { count := some 2000, wallet_name := some "w1", max_fee := some 0.0002 }
        (some { mainnet := some true })
        (some { mnemonic := some "abandon ability able" })) {} =
      merge_config_with_args_addresses
        (AddrConfig.legacy (addrSectionsToLegacy
          { count := some 2000, wallet_name := some "w1", max_fee := some 0.0002 }
          (some { mainnet := some true })
          (some { mnemonic := some "abandon ability able" }))) {} ∧
    (∀ (c : InvConfigFields) (args : InvArgs),
      merge_config_with_args_invoices (InvConfig.universal c) args =
        merge_config_with_args_invoices (InvConfig.legacy c) args) :=
  config_shape_roundtrip_amended
    { count := some 2000, wallet_name := some "w1", max_fee := some 0.0002 }
    (some { mainnet := some true })
    (some { mnemonic := some "abandon ability able" })
    (by decide) (by decide) (by decide)

/-! ## Exit codes (C9) -/

/-- CPython semantics of `exit(main())`: exit with main's integer
return value, or 0 when main returned `None`. -/
def pyExitOf (r : Option Nat) : Nat := r.getD 0

/-- Tail of `generate_invoices.main` (line 563): 0 iff no invoice
failed; the module entry (line 575) is `exit(main())`. -/
def invoicesMainExit (stats : GenStats) : Nat :=
  if stats.failed = 0 then 0 else 1

/-- Tail of `populate_tables.main` (lines 1172-1176): 0 iff the
payments run and — when invoices were populated — the invoices run had
no failures; the module entry (line 1190) is `exit(main())`. -/
def populateMainExit (paymentsFailed invoicesFailed : Nat) (populate_invoices : Bool) : Nat :=
  let payments_success := paymentsFailed == 0
  let invoices_success := !populate_invoices || invoicesFailed == 0
  if payments_success && invoices_success then 0 else 1

/-- `run_full_health_check`'s overall status (test_btcpay_health.py
lines 237-243). -/
def overallStatus (passed total : Nat) : String :=
  if passed = total then "healthy"
  else if 0 < passed then "degraded"
  else "unhealthy"

/-- Exit code of `test_btcpay_health.main` (lines 364-370): 0 healthy,
1 degraded, 2 unhealthy; the module entry (line 381) is `exit(main())`. -/
def healthMainExit (passed total : Nat) : Nat :=
  if overallStatus passed total = "healthy" then 0
  else if overallStatus passed total = "degraded" then 1
  else 2

/-- The outcomes of a `generate_addresses.main` run that determine its
return value: a config load/validation failure returns 1 (lines
787, 792); a completed run falls off the end of `main` and returns
`None` whatever the funding outcome was (`fund_addresses` returns no
status, line 442). -/
inductive AddrMainRun where
  | configInvalid
  | completed (fundedCount total : Nat)

def generate_addresses_main (r : AddrMainRun) : Option Nat :=
  match r with
  | .configInvalid => some 1
  | .completed _ _ => none

/-- The generate_addresses module entry (lines 915-916) calls `main()`
without `exit(...)`: main's return value is discarded and the process
exits 0. -/
def generate_addresses_entry (r : AddrMainRun) : Nat :=
  let _ := generate_addresses_main r
  0

/-- C9. The exit-code contract holds for generate_invoices (0 iff no
failed units), populate_tables (0 iff neither run had failures) and the
health checker (0 healthy, 1 degraded, 2 unhealthy), but
generate_addresses breaks it: its entry point discards main's status —
the process exits 0 even when main returned 1 for an invalid config,
and a run whose funding failed completely (0 of 10 funded) also
exits 0. -/
theorem exit_codes_bug :
    pyExitOf (generate_addresses_main AddrMainRun.configInvalid) = 1 ∧
    generate_addresses_entry AddrMainRun.configInvalid = 0 ∧
    generate_addresses_entry (AddrMainRun.completed 0 10) = 0 ∧
    invoicesMainExit { total_requested := 10, successful := 10, failed := 0 } = 0 ∧
    invoicesMainExit { total_requested := 10, successful := 7, failed := 3 } = 1 ∧
    populateMainExit 0 0 true = 0 ∧
    populateMainExit 2 0 true = 1 ∧
    populateMainExit 0 3 true = 1 ∧
    healthMainExit 6 6 = 0 ∧
    healthMainExit 3 6 = 1 ∧
    healthMainExit 0 6 = 2 := by
  decide

/-! ## populate_tables.py — payments reference invoices (C10) -/

/-- The fields of a generated payment row that the claims inspect. -/
structure PaymentData where
  id : String
  invoiceDataId : String
  accounted : Bool
  paymentMethodId : String
  amount : ℚ
  currency : String
  status : String
  index : Nat
deriving DecidableEq

/-- `PaymentsTablePopulator.generate_payment_data` (populate_tables.py
lines 109-183): `InvoiceDataId` is the passed invoice id when it is
truthy, otherwise the synthetic `INV-<date>-<index:06d>` reference
(line 124). `index` is the extra attribute set by the caller
(line 358). -/
def generate_payment_data (uuid today : String) (index : Nat)
    (invoice_id : Option String) : PaymentData :=
  let invoice_data_id :=
    match invoice_id with
    | some s => if s == "" then "INV-" ++ today ++ "-" ++ pad6 index else s
    | none => "INV-" ++ today ++ "-" ++ pad6 index
  { id := uuid, invoiceDataId := invoice_data_id, accounted := false,
    paymentMethodId := "BTC-CHAIN", amount := 1, currency := "USD",
    status := "Settled", index := index }

/-- The per-unit invoice id selection of `populate_payments`
(lines 339-345): when a non-None, non-empty list is available, 0-based
unit `i` gets `invoice_ids[i % len(invoice_ids)]`. -/
def pickInvoiceId (invoice_ids : Option (List String)) (i : Nat) : Option String :=
  match invoice_ids with
  | some ids => if ids.length > 0 then some (ids.getD (i % ids.length) "") else none
  | none => none

/-- One batch of `populate_payments` (lines 333-359): for
`i in range(batch_start, batch_end)` the payment for 1-based unit
`i + 1`. -/
def paymentsOfBatch (uuids : Nat → String) (today : String)
    (invoice_ids : Option (List String)) (bstart bend : Nat) : List PaymentData :=
  (List.range' bstart (bend - bstart)).map (fun i =>
    generate_payment_data (uuids (i + 1)) today (i + 1) (pickInvoiceId invoice_ids i))

/-- All payment rows generated by `populate_payments`, in batch order. -/
def populate_payments_data (uuids : Nat → String) (today : String)
    (invoice_ids : Option (List String)) (count batch_size : Nat) : List PaymentData :=
  ((pyRangeStep 0 count batch_size).map (fun bstart =>
    paymentsOfBatch uuids today invoice_ids bstart (min (bstart + batch_size) count))).flatten

/-- The batched generation visits exactly units `1..count`, in order. -/
theorem populate_payments_data_eq (uuids : Nat → String) (today : String)
    (invoice_ids : Option (List String)) (count bs : Nat) (hbs : 0 < bs) :
    populate_payments_data uuids today invoice_ids count bs =
      (List.range count).map (fun i =>
        generate_payment_data (uuids (i + 1)) today (i + 1)
          (pickInvoiceId invoice_ids i)) := by
  have hu := units_join_from count bs hbs count 0 (by omega)
  unfold populate_payments_data paymentsOfBatch
  calc ((pyRangeStep 0 count bs).map (fun s =>
          (List.range' s (min (s + bs) count - s)).map (fun i =>
            generate_payment_data (uuids (i + 1)) today (i + 1)
              (pickInvoiceId invoice_ids i)))).flatten
      = (((pyRangeStep 0 count bs).map (fun s =>
            List.range' s (min (s + bs) count - s))).map
          (List.map (fun i => generate_payment_data (uuids (i + 1)) today (i + 1)
            (pickInvoiceId invoice_ids i)))).flatten := by
        rw [List.map_map]
        rfl
    _ = (((pyRangeStep 0 count bs).map (fun s =>
            List.range' s (min (s + bs) count - s))).flatten).map
          (fun i => generate_payment_data (uuids (i + 1)) today (i + 1)
            (pickInvoiceId invoice_ids i)) := by
        rw [List.map_flatten]
    _ = (List.range' 0 (count - 0)).map
          (fun i => generate_payment_data (uuids (i + 1)) today (i + 1)
            (pickInvoiceId invoice_ids i)) := by
        rw [hu]
    _ = (List.range count).map
          (fun i => generate_payment_data (uuids (i + 1)) today (i + 1)
            (pickInvoiceId invoice_ids i)) := by
        rw [List.range_eq_range']
        norm_num

/-- C10. With a non-empty list of collected invoice ids, the payment
for 1-based unit `i + 1` references `invoice_ids[i % len(invoice_ids)]`
(round-robin), so every generated payment references a collected
invoice id; with no list available every payment carries the synthetic
`INV-<date>-<index:06d>` reference. -/
theorem payments_reference_invoices_round_robin (uuids : Nat → String)
    (today : String) (ids : List String) (count bs : Nat) (hbs : 0 < bs)
    (hids : ids ≠ []) (hall : ∀ s ∈ ids, ¬ s = "") :
    ((populate_payments_data uuids today (some ids) count bs).map
        (fun p => p.invoiceDataId)) =
      (List.range count).map (fun i => ids.getD (i % ids.length) "") ∧
    (∀ p ∈ populate_payments_data uuids today (some ids) count bs,
        p.invoiceDataId ∈ ids) ∧
    ((populate_payments_data uuids today none count bs).map
        (fun p => p.invoiceDataId)) =
      (List.range count).map (fun i => "INV-" ++ today ++ "-" ++ pad6 (i + 1)) := by
  have hlen : 0 < ids.length := List.length_pos.mpr hids
  have hmem : ∀ i : Nat, ids.getD (i % ids.length) "" ∈ ids := by
    intro i
    have h1 : i % ids.length < ids.length := Nat.mod_lt _ hlen
    rw [List.getD_eq_getElem?_getD, List.getElem?_eq_getElem h1]
    exact List.getElem_mem h1
  have hpoint : ∀ i : Nat,
      (generate_payment_data (uuids (i + 1)) today (i + 1)
        (pickInvoiceId (some ids) i)).invoiceDataId = ids.getD (i % ids.length) "" := by
    intro i
    have hv := hall _ (hmem i)
    rw [pickInvoiceId]
    rw [if_pos hlen]
    rw [generate_payment_data]
    simp only
    rw [if_neg ?_]
    simp only [beq_iff_eq]
    exact hv
  have h1 : ((populate_payments_data uuids today (some ids) count bs).map
      (fun p => p.invoiceDataId)) =
      (List.range count).map (fun i => ids.getD (i % ids.length) "") := by
    rw [populate_payments_data_eq uuids today (some ids) count bs hbs, List.map_map]
    apply List.map_congr_left
    intro i _
    exact hpoint i
  refine ⟨h1, ?_, ?_⟩
  · intro p hp
    have hmm : p.invoiceDataId ∈
        (populate_payments_data uuids today (some ids) count bs).map
          (fun p => p.invoiceDataId) := List.mem_map_of_mem _ hp
    rw [h1] at hmm
    obtain ⟨i, _, hi⟩ := List.mem_map.mp hmm
    rw [← hi]
    exact hmem i
  · rw [populate_payments_data_eq uuids today none count bs hbs, List.map_map]
    rfl

/-- Witness for C10: invoice ids `A B C`, 7 payments in batches of 3. -/
theorem payments_reference_invoices_round_robin_witness :
    ((populate_payments_data (fun i => "u" ++ toString i) "20251012"
        (some ["A", "B", "C"]) 7 3).map (fun p => p.invoiceDataId)) =
      (List.range 7).map (fun i => ["A", "B", "C"].getD (i % 3) "") ∧
    (∀ p ∈ populate_payments_data (fun i => "u" ++ toString i) "20251012"
        (some ["A", "B", "C"]) 7 3, p.invoiceDataId ∈ ["A", "B", "C"]) ∧
    ((populate_payments_data (fun i => "u" ++ toString i) "20251012"
        none 7 3).map (fun p => p.invoiceDataId)) =
      (List.range 7).map (fun i => "INV-" ++ "20251012" ++ "-" ++ pad6 (i + 1)) := by
  have h := payments_reference_invoices_round_robin (fun i => "u" ++ toString i)
    "20251012" ["A", "B", "C"] 7 3 (by decide) (by decide) (by decide)
  simpa using h

end BTCPayScripts
